import Mathlib

/-!
Verification of the animate-on-view viewport-intersection animation engine.

Shallow embedding of the library core:
  - the visibility classifier (src/utils/viewportUtils.ts),
  - the style computer (src/animations/fadeAnimations.ts, slideAnimations.ts,
    zoomAnimations.ts, flipAnimations.ts, index.ts and the duplicate
    createAnimationStyles in src/utils/animationUtils.ts),
  - configuration validation and normalization (src/utils/animationUtils.ts),
  - the watcher pool (src/utils/observerManager.ts),
  - the per-element animation lifecycle of useScrollAnimation
    (src/hooks/useScrollAnimation.ts).

JavaScript numbers are modelled as Rat where fractional values occur and as
Int where the code only meets integers; element, callback and root identities
are modelled as Nat; fallible operations return Except.
-/

namespace AnimateOnView

/-! ## Visibility classifier -/

/-- Model of shouldTriggerWithThreshold from src/utils/viewportUtils.ts.
Hysteresis: the enter threshold is the configured threshold, the exit
threshold is half of it. -/
def shouldTriggerWithThreshold (ratio : ℚ) (threshold : ℚ) (wasVisible : Bool) : Bool :=
  let enterThreshold := threshold
  let exitThreshold := threshold * (1/2)
  if wasVisible then
    decide (ratio > exitThreshold)
  else
    decide (ratio > enterThreshold)

/-- Model of createRootMargin from src/utils/viewportUtils.ts: the offset in
pixels repeated for all four sides. -/
def createRootMargin (offset : Int) : String :=
  toString offset ++ "px " ++ toString offset ++ "px " ++ toString offset ++ "px " ++ toString offset ++ "px"

/-! ## Style computer -/

/-- The TypeScript union AnimationDirection. -/
inductive AnimationDirection where
  | up
  | down
  | left
  | right
deriving DecidableEq, Repr

/-- The two halves of a transition: which member of the style pair is being
computed. -/
inductive Phase where
  | initial
  | animate
deriving DecidableEq, Repr

/-- The CSSAnimationProperties interface: every field optional; none models a
CSS property that the style object does not carry. Opacity only ever takes
the values 0 and 1 in this code, so it is a Nat. -/
structure CSSAnimationProperties where
  transform : Option String := none
  opacity : Option Nat := none
  transition : Option String := none
  willChange : Option String := none
  backfaceVisibility : Option String := none
  perspective : Option String := none
deriving DecidableEq, Repr

/-- getFadeStyles from src/animations/fadeAnimations.ts. -/
def getFadeStyles (phase : Phase) : CSSAnimationProperties :=
  match phase with
  | .initial =>
      { opacity := some 0
        transform := some "translateZ(0)"
        willChange := some "opacity, transform"
        backfaceVisibility := some "hidden" }
  | .animate =>
      { opacity := some 1
        transform := some "translateZ(0)"
        willChange := some "auto"
        backfaceVisibility := some "hidden" }

/-- The slideTransforms table from src/animations/slideAnimations.ts. -/
def slideTransforms (d : AnimationDirection) (phase : Phase) : String :=
  match d, phase with
  | .up, .initial => "translate3d(0, 30px, 0)"
  | .up, .animate => "translate3d(0, 0, 0)"
  | .down, .initial => "translate3d(0, -30px, 0)"
  | .down, .animate => "translate3d(0, 0, 0)"
  | .left, .initial => "translate3d(30px, 0, 0)"
  | .left, .animate => "translate3d(0, 0, 0)"
  | .right, .initial => "translate3d(-30px, 0, 0)"
  | .right, .animate => "translate3d(0, 0, 0)"

/-- getSlideStyles from src/animations/slideAnimations.ts: the animate branch
ignores the direction (createSlideAnimatedStyles takes no argument). -/
def getSlideStyles (phase : Phase) (direction : AnimationDirection) : CSSAnimationProperties :=
  match phase with
  | .initial =>
      { transform := some (slideTransforms direction .initial)
        opacity := some 0
        willChange := some "transform, opacity"
        backfaceVisibility := some "hidden" }
  | .animate =>
      { transform := some "translate3d(0, 0, 0)"
        opacity := some 1
        willChange := some "auto"
        backfaceVisibility := some "hidden" }

/-- The zoomScales table from src/animations/zoomAnimations.ts: down starts
oversized at 1.2, the other directions undersized at 0.8. -/
def zoomScales (d : AnimationDirection) (phase : Phase) : String :=
  match d, phase with
  | .up, .initial => "scale3d(0.8, 0.8, 1) translateZ(0)"
  | .up, .animate => "scale3d(1, 1, 1) translateZ(0)"
  | .down, .initial => "scale3d(1.2, 1.2, 1) translateZ(0)"
  | .down, .animate => "scale3d(1, 1, 1) translateZ(0)"
  | .left, .initial => "scale3d(0.8, 0.8, 1) translateZ(0)"
  | .left, .animate => "scale3d(1, 1, 1) translateZ(0)"
  | .right, .initial => "scale3d(0.8, 0.8, 1) translateZ(0)"
  | .right, .animate => "scale3d(1, 1, 1) translateZ(0)"

/-- getZoomStyles from src/animations/zoomAnimations.ts: the animate branch
ignores the direction (createZoomAnimatedStyles takes no argument). -/
def getZoomStyles (phase : Phase) (direction : AnimationDirection) : CSSAnimationProperties :=
  match phase with
  | .initial =>
      { transform := some (zoomScales direction .initial)
        opacity := some 0
        willChange := some "transform, opacity"
        backfaceVisibility := some "hidden" }
  | .animate =>
      { transform := some "scale3d(1, 1, 1) translateZ(0)"
        opacity := some 1
        willChange := some "auto"
        backfaceVisibility := some "hidden" }

/-- The flipTransforms table from src/animations/flipAnimations.ts. -/
def flipTransforms (d : AnimationDirection) (phase : Phase) : String :=
  match d, phase with
  | .up, .initial => "perspective(400px) rotateX(90deg) translateZ(0)"
  | .up, .animate => "perspective(400px) rotateX(0deg) translateZ(0)"
  | .down, .initial => "perspective(400px) rotateX(-90deg) translateZ(0)"
  | .down, .animate => "perspective(400px) rotateX(0deg) translateZ(0)"
  | .left, .initial => "perspective(400px) rotateY(-90deg) translateZ(0)"
  | .left, .animate => "perspective(400px) rotateY(0deg) translateZ(0)"
  | .right, .initial => "perspective(400px) rotateY(90deg) translateZ(0)"
  | .right, .animate => "perspective(400px) rotateY(0deg) translateZ(0)"

/-- getFlipStyles from src/animations/flipAnimations.ts. -/
def getFlipStyles (phase : Phase) (direction : AnimationDirection) : CSSAnimationProperties :=
  match phase with
  | .initial =>
      { transform := some (flipTransforms direction .initial)
        opacity := some 0
        willChange := some "transform, opacity"
        backfaceVisibility := some "hidden" }
  | .animate =>
      { transform := some (flipTransforms direction .animate)
        opacity := some 1
        willChange := some "auto"
        backfaceVisibility := some "hidden" }

/-- getAnimationStyles from src/animations/index.ts. The family is a String
because the fallback arm of the switch is reachable with any value outside
the AnimationType union (the tests exercise it with an unknown string). -/
def getAnimationStyles (type_ : String) (direction : AnimationDirection) (phase : Phase) : CSSAnimationProperties :=
  if type_ = "fade" then getFadeStyles phase
  else if type_ = "slide" then getSlideStyles phase direction
  else if type_ = "zoom" then getZoomStyles phase direction
  else if type_ = "flip" then getFlipStyles phase direction
  else getFadeStyles phase

/-- createCompleteAnimationStyles from src/animations/index.ts: the
transition string is attached only in the animate phase. -/
def createCompleteAnimationStyles (type_ : String) (direction : AnimationDirection)
    (phase : Phase) (duration : Int) (delay : Int) (easing : String) : CSSAnimationProperties :=
  let animationStyles := getAnimationStyles type_ direction phase
  if phase = .animate then
    { animationStyles with
        transition := some ("all " ++ toString duration ++ "ms " ++ easing ++ " " ++ toString delay ++ "ms") }
  else
    animationStyles

/-- The duplicate createAnimationStyles in src/utils/animationUtils.ts
(CSS utilities section). Its zoom case uses the same 0.8 scale for every
direction, unlike getZoomStyles. The switch has no default arm, so an
unknown family returns only the base GPU-hint styles. -/
def createAnimationStyles (type_ : String) (direction : AnimationDirection) (phase : Phase) : CSSAnimationProperties :=
  let base : CSSAnimationProperties :=
    { willChange := some (if phase = .initial then "transform, opacity" else "auto")
      backfaceVisibility := some "hidden"
      perspective := some "1000px" }
  if type_ = "fade" then
    { base with
        opacity := some (if phase = .initial then 0 else 1)
        transform := some "translateZ(0)" }
  else if type_ = "slide" then
    { base with
        transform := some (slideTransforms direction phase)
        opacity := some (if phase = .initial then 0 else 1) }
  else if type_ = "zoom" then
    { base with
        transform := some (if phase = .initial then "scale3d(0.8, 0.8, 1) translateZ(0)"
                           else "scale3d(1, 1, 1) translateZ(0)")
        opacity := some (if phase = .initial then 0 else 1) }
  else if type_ = "flip" then
    { base with
        transform := some (flipTransforms direction phase)
        opacity := some (if phase = .initial then 0 else 1) }
  else
    base

/-! ## Configuration validation and normalization

From src/utils/animationUtils.ts. Durations, delays and offsets are
integers here (the claims only concern integer inputs; the NaN and
non-number branches of the validators are unrepresentable for Int and are
omitted). The devWarn calls placed directly in the body of
normalizeAnimationConfig are modelled as a list of emitted error codes;
the warnings nested inside the validate helpers only duplicate those codes
and are not tracked. -/

namespace ErrorCodes

def INVALID_DURATION : String := "INVALID_DURATION"

def INVALID_DELAY : String := "INVALID_DELAY"

def INVALID_OFFSET : String := "INVALID_OFFSET"

def UNSUPPORTED_ANIMATION : String := "UNSUPPORTED_ANIMATION"

def INVALID_CONFIG : String := "INVALID_CONFIG"

end ErrorCodes

/-- The AnimationError class; only the machine-readable code matters to the
claims, the human-readable message is not modelled. -/
structure AnimationError where
  code : String
deriving DecidableEq, Repr

/-- validateDuration: valid range 100 to 3000 inclusive. -/
def validateDuration (duration : Int) : Bool :=
  if duration < 100 then false
  else if duration > 3000 then false
  else true

/-- validateDelay: valid range 0 to 2000 inclusive. -/
def validateDelay (delay : Int) : Bool :=
  if delay < 0 then false
  else if delay > 2000 then false
  else true

/-- validateOffset: every finite number is accepted (a large magnitude only
emits a warning and still returns true). -/
def validateOffset (_offset : Int) : Bool :=
  true

/-- validateAnimationType: membership in the four supported families. -/
def validateAnimationType (type_ : String) : Bool :=
  type_ = "fade" || type_ = "slide" || type_ = "zoom" || type_ = "flip"

/-- validateAnimationDirection: membership in the four directions. The
type argument of the source function only selects a warning message and
does not affect the returned value, so it is dropped here. -/
def validateAnimationDirection (direction : String) : Bool :=
  direction = "up" || direction = "down" || direction = "left" || direction = "right"

/-- Model of the JavaScript test isNaN(parseFloat(s.trim())) being false:
after trimming and an optional sign, the string must start with a digit, a
dot followed by a digit, or the word Infinity. -/
def jsParseFloatDefined (s : String) : Bool :=
  let t := s.trim
  let u := if t.startsWith "+" || t.startsWith "-" then t.drop 1 else t
  if u.startsWith "Infinity" then true
  else
    match u.data with
    | [] => false
    | c :: rest =>
        c.isDigit || (c = '.' && (match rest with
                                  | [] => false
                                  | d :: _ => d.isDigit))

def builtInEasing : List String :=
  ["ease", "ease-in", "ease-out", "ease-in-out", "linear"]

/-- validateEasing: built-in tokens verbatim; cubic-bezier accepted when it
ends in a closing parenthesis and the comma-separated slice between the
opening and closing parentheses is exactly four parseable numbers; the
steps and frames prefixes are accepted wholesale. -/
def validateEasing (easing : String) : Bool :=
  if builtInEasing.contains easing then true
  else if easing.startsWith "cubic-bezier(" then
    if !(easing.endsWith ")") then false
    else
      let values := (((easing.drop 13).dropRight 1).splitOn ",")
      if values.length != 4 || values.any (fun v => !(jsParseFloatDefined v)) then false
      else true
  else if easing.startsWith "steps(" || easing.startsWith "frames(" then true
  else false

/-- The partial AnimationConfig the callers hand in: every field optional
(none is the JavaScript undefined). -/
structure PartialConfig where
  type : Option String := none
  direction : Option String := none
  duration : Option Int := none
  delay : Option Int := none
  easing : Option String := none
  offset : Option Int := none
  once : Option Bool := none
  mirror : Option Bool := none
deriving DecidableEq, Repr

/-- The canonical fully-defaulted configuration normalizeAnimationConfig
returns. -/
structure NormalizedConfig where
  type : String
  direction : Option String
  duration : Int
  delay : Int
  easing : String
  offset : Int
  once : Bool
  mirror : Bool
deriving DecidableEq, Repr

/-- A normalized config viewed again as a partial config (every field
present), as happens when a normalized config is fed back into
normalizeAnimationConfig or validateAnimationConfig. -/
def toPartialConfig (c : NormalizedConfig) : PartialConfig :=
  { type := some c.type
    direction := c.direction
    duration := some c.duration
    delay := some c.delay
    easing := some c.easing
    offset := some c.offset
    once := some c.once
    mirror := some c.mirror }

/-- validateAnimationConfig: raises an AnimationError on the first violated
constraint, in source order. An absent type is invalid (indexOf of
undefined is -1). An empty-string direction or easing is skipped by the
truthiness guard. -/
def validateAnimationConfig (c : PartialConfig) : Except AnimationError Unit :=
  if !(match c.type with
       | some t => validateAnimationType t
       | none => false) then
    .error ⟨ErrorCodes.UNSUPPORTED_ANIMATION⟩
  else if (match c.direction with
           | some d => d != "" && !(validateAnimationDirection d)
           | none => false) then
    .error ⟨ErrorCodes.INVALID_CONFIG⟩
  else if (match c.duration with
           | some d => !(validateDuration d)
           | none => false) then
    .error ⟨ErrorCodes.INVALID_DURATION⟩
  else if (match c.delay with
           | some d => !(validateDelay d)
           | none => false) then
    .error ⟨ErrorCodes.INVALID_DELAY⟩
  else if (match c.offset with
           | some o => !(validateOffset o)
           | none => false) then
    .error ⟨ErrorCodes.INVALID_OFFSET⟩
  else if (match c.easing with
           | some e => e != "" && !(validateEasing e)
           | none => false) then
    .error ⟨ErrorCodes.INVALID_CONFIG⟩
  else
    .ok ()

/-- Type normalization: an invalid or absent type falls back to fade; the
fallback for a present invalid type emits a diagnostic. The truthiness
guard makes the empty string fall through silently. -/
def normalizeType : Option String → String × List String
  | none => ("fade", [])
  | some t =>
      if t != "" && validateAnimationType t then (t, [])
      else if t != "" then ("fade", [ErrorCodes.UNSUPPORTED_ANIMATION])
      else ("fade", [])

/-- Direction normalization: a present, nonempty, invalid direction is
dropped with a diagnostic; anything else passes through. -/
def normalizeDirection : Option String → Option String × List String
  | none => (none, [])
  | some d =>
      if d != "" && !(validateAnimationDirection d) then (none, [ErrorCodes.INVALID_CONFIG])
      else (some d, [])

/-- Duration normalization: absent defaults to 600; an out-of-range value
is clamped into the valid range, except that the JavaScript truthiness in
the expression duration or-else 600 turns a present 0 into 600 before the
clamp. -/
def normalizeDuration : Option Int → Int × List String
  | none => (600, [])
  | some d =>
      if !(validateDuration d) then
        (max 100 (min 3000 (if d = 0 then 600 else d)), [ErrorCodes.INVALID_DURATION])
      else (d, [])

/-- Delay normalization: absent defaults to 0; an out-of-range value is
clamped, with the same truthiness fallback (delay or-else 0). -/
def normalizeDelay : Option Int → Int × List String
  | none => (0, [])
  | some d =>
      if !(validateDelay d) then
        (max 0 (min 2000 (if d = 0 then 0 else d)), [ErrorCodes.INVALID_DELAY])
      else (d, [])

/-- Easing normalization: absent defaults to ease; a present, nonempty,
invalid easing falls back to ease with a diagnostic. -/
def normalizeEasing : Option String → String × List String
  | none => ("ease", [])
  | some e =>
      if e != "" && !(validateEasing e) then ("ease", [ErrorCodes.INVALID_CONFIG])
      else (e, [])

/-- Offset normalization: absent defaults to 0; an invalid offset falls
back to 0 (unreachable for integer inputs since validateOffset always
holds there). -/
def normalizeOffset : Option Int → Int × List String
  | none => (0, [])
  | some o =>
      if !(validateOffset o) then (0, [ErrorCodes.INVALID_OFFSET])
      else (o, [])

/-- normalizeAnimationConfig together with the list of diagnostics its body
emits, in source order: type, direction, duration, delay, easing, offset. -/
def normalizeAnimationConfigD (c : PartialConfig) : NormalizedConfig × List String :=
  let nt := normalizeType c.type
  let nd := normalizeDirection c.direction
  let ndur := normalizeDuration c.duration
  let ndel := normalizeDelay c.delay
  let ne := normalizeEasing c.easing
  let no := normalizeOffset c.offset
  ({ type := nt.1
     direction := nd.1
     duration := ndur.1
     delay := ndel.1
     easing := ne.1
     offset := no.1
     once := c.once.getD true
     mirror := c.mirror.getD false },
   nt.2 ++ nd.2 ++ ndur.2 ++ ndel.2 ++ ne.2 ++ no.2)

/-- normalizeAnimationConfig: the canonical config, never raising. -/
def normalizeAnimationConfig (c : PartialConfig) : NormalizedConfig :=
  (normalizeAnimationConfigD c).1

/-! ## Watcher pool (observer manager)

From src/utils/observerManager.ts. DOM elements, callbacks and custom
roots are identified by Nat. The module-level Map and WeakMaps become
association lists inside an explicit ManagerState; the underlying
IntersectionObserver becomes a Watcher record holding its construction
parameters and the set of elements it currently observes. Threshold
numbers are rationals; their JavaScript toString rendering in the pooling
key is modelled by the Rat toString, which is likewise deterministic and
injective. -/

/-- Association-list lookup used to model Map.get and WeakMap.get. -/
def lookupA {α β : Type} [DecidableEq α] (k : α) : List (α × β) → Option β
  | [] => none
  | (k2, v) :: rest => if k2 = k then some v else lookupA k rest

/-- Association-list update used to model Map.set and WeakMap.set. -/
def setA {α β : Type} [DecidableEq α] (k : α) (v : β) : List (α × β) → List (α × β)
  | [] => [(k, v)]
  | (k2, v2) :: rest => if k2 = k then (k, v) :: rest else (k2, v2) :: setA k v rest

/-- Association-list removal used to model Map.delete and WeakMap.delete. -/
def removeA {α β : Type} [DecidableEq α] (k : α) : List (α × β) → List (α × β)
  | [] => []
  | (k2, v2) :: rest => if k2 = k then rest else (k2, v2) :: removeA k rest

/-- The threshold option: a single ratio or a list of ratios. -/
inductive ThresholdValue where
  | single (t : ℚ)
  | many (ts : List ℚ)
deriving DecidableEq, Repr

/-- The UseIntersectionObserverOptions fields the pool consults. The once
and disabled fields of the source interface are never read by the pool and
are omitted. -/
structure ObserverOptions where
  root : Option Nat := none
  rootMargin : Option String := none
  threshold : Option ThresholdValue := none
  offset : Option Int := none
deriving DecidableEq, Repr

/-- JavaScript s or-else d for an optional string: undefined and the empty
string are both falsy. -/
def jsOrString (s : Option String) (d : String) : String :=
  match s with
  | some v => if v = "" then d else v
  | none => d

/-- The effective rootMargin expression that appears verbatim in both
createObserverKey and getOrCreateObserver: an explicit rootMargin wins;
otherwise a margin is synthesized from the offset only when the offset is
strictly positive, and is the literal 0px otherwise. -/
def effectiveRootMarginOf (rootMargin : Option String) (offset : Int) : String :=
  jsOrString rootMargin (if offset > 0 then createRootMargin offset else "0px")

/-- Model of the JavaScript Number toString used in the pooling key. -/
def numKey (q : ℚ) : String :=
  toString q

/-- The root component of the pooling key: any present root becomes the
literal custom-root, an absent root becomes viewport. -/
def rootKeyOf (root : Option Nat) : String :=
  match root with
  | some _ => "custom-root"
  | none => "viewport"

/-- The threshold component of the pooling key: a list joins its rendered
entries with commas, a single value renders alone. -/
def thresholdKeyOf (t : ThresholdValue) : String :=
  match t with
  | .single v => numKey v
  | .many vs => String.intercalate "," (vs.map numKey)

/-- createObserverKey from src/utils/observerManager.ts. -/
def createObserverKey (o : ObserverOptions) : String :=
  let threshold := o.threshold.getD (.single 0)
  let offset := o.offset.getD 0
  let effectiveRootMargin := effectiveRootMarginOf o.rootMargin offset
  let rootKey := rootKeyOf o.root
  let thresholdKey := thresholdKeyOf threshold
  rootKey ++ "-" ++ effectiveRootMargin ++ "-" ++ thresholdKey

/-- One shared platform watcher: its construction parameters and the
elements it currently observes. -/
structure Watcher where
  root : Option Nat
  rootMargin : String
  threshold : ThresholdValue
  observed : List Nat
deriving DecidableEq, Repr

/-- The module-level mutable state of the observer manager: the keyed
instance pool, a fresh-id counter standing for watcher construction, and
the element-to-callback and element-to-observer maps. -/
structure ManagerState where
  observerInstances : List (String × Nat) := []
  watchers : List (Nat × Watcher) := []
  nextId : Nat := 0
  elementCallbacks : List (Nat × Nat) := []
  elementObservers : List (Nat × Nat) := []
deriving DecidableEq, Repr

/-- getOrCreateObserver: reuse the pooled instance for the key when one
exists, otherwise construct a watcher from the options and pool it. -/
def getOrCreateObserver (o : ObserverOptions) (st : ManagerState) : Nat × ManagerState :=
  let key := createObserverKey o
  match lookupA key st.observerInstances with
  | some id => (id, st)
  | none =>
      let offset := o.offset.getD 0
      let w : Watcher :=
        { root := o.root
          rootMargin := effectiveRootMarginOf o.rootMargin offset
          threshold := o.threshold.getD (.single 0)
          observed := [] }
      let id := st.nextId
      (id, { st with
               observerInstances := setA key id st.observerInstances
               watchers := setA id w st.watchers
               nextId := id + 1 })

/-- The platform observe call on a watcher: adds the element to the
observed set; observing an already observed element is a no-op. -/
def watcherObserve (wid elem : Nat) (st : ManagerState) : ManagerState :=
  match lookupA wid st.watchers with
  | none => st
  | some w =>
      let w2 := { w with observed := if elem ∈ w.observed then w.observed else w.observed ++ [elem] }
      { st with watchers := setA wid w2 st.watchers }

/-- The platform unobserve call on a watcher: removes the element from the
observed set. -/
def watcherUnobserve (wid elem : Nat) (st : ManagerState) : ManagerState :=
  match lookupA wid st.watchers with
  | none => st
  | some w =>
      { st with watchers := setA wid { w with observed := w.observed.filter (fun e => e ≠ elem) } st.watchers }

/-- unobserve from createObserverManager: a no-op for an element never
observed, otherwise platform-unobserve plus deletion of both mappings. -/
def unobserve (elem : Nat) (st : ManagerState) : ManagerState :=
  match lookupA elem st.elementObservers with
  | none => st
  | some wid =>
      let st2 := watcherUnobserve wid elem st
      { st2 with
          elementCallbacks := removeA elem st2.elementCallbacks
          elementObservers := removeA elem st2.elementObservers }

/-- observe from createObserverManager: re-observing first unobserves the
prior registration, then obtains the pooled watcher for the options, stores
the callback and observer mappings, and starts platform observation. The
server-side early return is not modelled (a client environment is
assumed). -/
def observe (elem cb : Nat) (o : ObserverOptions) (st : ManagerState) : ManagerState :=
  let st1 := if (lookupA elem st.elementObservers).isSome then unobserve elem st else st
  let r := getOrCreateObserver o st1
  let st2 := { r.2 with
                 elementCallbacks := setA elem cb r.2.elementCallbacks
                 elementObservers := setA elem r.1 r.2.elementObservers }
  watcherObserve r.1 elem st2

/-! ## Animation lifecycle (useScrollAnimation)

From src/hooks/useScrollAnimation.ts. The hook is event-driven: the
intersection effect, the requestAnimationFrame callback scheduled by
trigger, the completion timeout scheduled by trigger, the returned trigger
and reset functions, and the unmount cleanup. Each becomes one event of an
explicit step function over an explicit state. React state setters become
direct field updates. The element reference is modelled by a mounted flag:
validateElement succeeds exactly while the component is mounted and its
element is connected. Events owned by React (the intersection effect, and
the trigger and reset closures, which guard on the element) are inert once
unmounted; the timeout and animation-frame closures are owned by the
platform and still fire unless cancelled, which is exactly what the
cleanup logic must prevent. -/

/-- The configuration fields the hook reads, after normalization, plus the
motion-disabled flag computed once per mount. -/
structure HookConfig where
  type : String
  direction : Option AnimationDirection
  duration : Int
  delay : Int
  easing : String
  once : Bool
  mirror : Bool
  motionDisabled : Bool
deriving DecidableEq, Repr

/-- The per-element hook state: the three React state booleans, the pending
completion timeout, the pending animation frame, liveness of the element,
and the inline style record of the element. -/
structure HookState where
  isVisible : Bool
  isAnimating : Bool
  hasAnimated : Bool
  timerPending : Bool
  rafPending : Bool
  mounted : Bool
  style : CSSAnimationProperties
deriving DecidableEq, Repr

/-- The events that can reach the hook. -/
inductive HookEvent where
  | intersectionChange (isIntersecting : Bool)
  | rafFire
  | timerFire
  | callTrigger
  | callReset
  | unmount
deriving DecidableEq, Repr

/-- The lifecycle callbacks observable from outside. -/
inductive LifecycleCallback where
  | onStart
  | onEnd
deriving DecidableEq, Repr

/-- Object.assign of a style object onto the element style: fields the
source object carries overwrite, fields it lacks persist. -/
def assignStyles (base upd : CSSAnimationProperties) : CSSAnimationProperties :=
  { transform := match upd.transform with | some v => some v | none => base.transform
    opacity := match upd.opacity with | some v => some v | none => base.opacity
    transition := match upd.transition with | some v => some v | none => base.transition
    willChange := match upd.willChange with | some v => some v | none => base.willChange
    backfaceVisibility := match upd.backfaceVisibility with | some v => some v | none => base.backfaceVisibility
    perspective := match upd.perspective with | some v => some v | none => base.perspective }

/-- JavaScript truthiness of a style string property: present and
nonempty. -/
def truthyStr (s : Option String) : Bool :=
  match s with
  | some v => v != ""
  | none => false

/-- The undefined-defaults-to-up rule of the style functions when the
normalized config carries no direction. -/
def dirOrUp (d : Option AnimationDirection) : AnimationDirection :=
  d.getD .up

/-- The body of trigger: guarded on element validity, on not currently
animating, on motion being enabled, and on the once policy; then marks the
element entering, emits onStart, applies the initial-phase styles, and
schedules the animation frame and the completion timeout. -/
def triggerFn (cfg : HookConfig) (s : HookState) : HookState × List LifecycleCallback :=
  if !s.mounted || s.isAnimating || cfg.motionDisabled then (s, [])
  else if s.hasAnimated && cfg.once then (s, [])
  else
    ({ s with
         isAnimating := true
         isVisible := true
         style := assignStyles s.style (getAnimationStyles cfg.type (dirOrUp cfg.direction) .initial)
         rafPending := true
         timerPending := true },
     [.onStart])

/-- The animation-frame callback scheduled by trigger: applies the
animate-phase styles with the transition attached. It captures the element
directly and runs even after unmount. -/
def rafBody (cfg : HookConfig) (s : HookState) : HookState :=
  if s.rafPending then
    { s with
        rafPending := false
        style := assignStyles s.style
          (createCompleteAnimationStyles cfg.type (dirOrUp cfg.direction) .animate cfg.duration cfg.delay cfg.easing) }
  else s

/-- The completion timeout scheduled by trigger: leaves the entering state,
marks the element as having animated once, emits onEnd, and strips the
transition and the will-change hint. It captures the element directly and
runs unless cancelled. -/
def timerBody (s : HookState) : HookState × List LifecycleCallback :=
  if s.timerPending then
    let s1 := { s with timerPending := false, isAnimating := false, hasAnimated := true }
    let s2 := if truthyStr s1.style.transition then
                { s1 with style := { s1.style with transition := some "" } }
              else s1
    let s3 := if truthyStr s2.style.willChange && s2.style.willChange != some "auto" then
                { s2 with style := { s2.style with willChange := some "auto" } }
              else s2
    (s3, [.onEnd])
  else (s, [])

/-- The body of reset: guarded on the element reference; cancels any
pending completion timeout, clears all three state booleans, re-applies the
initial-phase styles and removes the transition. -/
def resetFn (cfg : HookConfig) (s : HookState) : HookState :=
  if !s.mounted then s
  else
    let s1 := { s with timerPending := false, isVisible := false, isAnimating := false, hasAnimated := false }
    let s2 := { s1 with style := assignStyles s1.style (getAnimationStyles cfg.type (dirOrUp cfg.direction) .initial) }
    { s2 with style := { s2.style with transition := some "" } }

/-- The intersection effect: on an entering signal while neither visible
nor animating it triggers; on a leaving signal while visible, with mirror
on and once off, it resets. -/
def intersectionEffect (cfg : HookConfig) (isIntersecting : Bool) (s : HookState) :
    HookState × List LifecycleCallback :=
  if !s.mounted then (s, [])
  else if cfg.motionDisabled then (s, [])
  else if isIntersecting && !s.isVisible && !s.isAnimating then triggerFn cfg s
  else if !isIntersecting && s.isVisible && cfg.mirror && !cfg.once then (resetFn cfg s, [])
  else (s, [])

/-- One event step of the hook. Unmount runs the cleanup effect, which
cancels the pending completion timeout and invalidates the element. -/
def hookStep (cfg : HookConfig) (s : HookState) : HookEvent → HookState × List LifecycleCallback
  | .intersectionChange b => intersectionEffect cfg b s
  | .rafFire => (rafBody cfg s, [])
  | .timerFire => timerBody s
  | .callTrigger => triggerFn cfg s
  | .callReset => if cfg.motionDisabled then (s, []) else (resetFn cfg s, [])
  | .unmount => ({ s with timerPending := false, mounted := false }, [])

/-- Runs a list of events, concatenating the emitted lifecycle callbacks in
order. -/
def hookRun (cfg : HookConfig) (s : HookState) : List HookEvent → HookState × List LifecycleCallback
  | [] => (s, [])
  | e :: es =>
      let r := hookStep cfg s e
      let r2 := hookRun cfg r.1 es
      (r2.1, r.2 ++ r2.2)

/-- The settled post-completion state: visible, not animating, marked as
animated once, nothing pending. -/
def Settled (s : HookState) : Prop :=
  s.isVisible = true ∧ s.isAnimating = false ∧ s.hasAnimated = true ∧
    s.timerPending = false ∧ s.rafPending = false

/-- The conclusion of amended claim C5 at an out-of-range duration d:
normalization yields the clamp of d for nonzero d but the default 600 for
d equal to 0, the result lies in the valid range either way, the
invalid-duration diagnostic is emitted, and strict validation of the same
value raises the invalid-duration error. -/
def C5Conclusion (d : Int) : Prop :=
  (normalizeAnimationConfig { duration := some d }).duration
      = (if d = 0 then 600 else max 100 (min 3000 d))
  ∧ 100 ≤ (normalizeAnimationConfig { duration := some d }).duration
  ∧ (normalizeAnimationConfig { duration := some d }).duration ≤ 3000
  ∧ ErrorCodes.INVALID_DURATION ∈ (normalizeAnimationConfigD { duration := some d }).2
  ∧ validateAnimationConfig { type := some "fade", duration := some d }
      = .error ⟨ErrorCodes.INVALID_DURATION⟩

/-- The conclusion of claim C3 for a config cfg and a visible state s: the
leaving signal performs a hard reset — no callback, not visible, not
animating, animated flag cleared, pending completion timer cancelled, the
initial-phase transform and opacity re-applied and the transition property
emptied — and the following entering signal starts the entering transition
again, emitting onStart and scheduling the frame and the timer. -/
def C3Conclusion (cfg : HookConfig) (s : HookState) : Prop :=
  (hookStep cfg s (.intersectionChange false)).2 = []
  ∧ (hookStep cfg s (.intersectionChange false)).1.isVisible = false
  ∧ (hookStep cfg s (.intersectionChange false)).1.isAnimating = false
  ∧ (hookStep cfg s (.intersectionChange false)).1.hasAnimated = false
  ∧ (hookStep cfg s (.intersectionChange false)).1.timerPending = false
  ∧ (hookStep cfg s (.intersectionChange false)).1.style.transition = some ""
  ∧ (hookStep cfg s (.intersectionChange false)).1.style.transform
      = (getAnimationStyles cfg.type (dirOrUp cfg.direction) .initial).transform
  ∧ (hookStep cfg s (.intersectionChange false)).1.style.opacity
      = (getAnimationStyles cfg.type (dirOrUp cfg.direction) .initial).opacity
  ∧ (hookStep cfg (hookStep cfg s (.intersectionChange false)).1 (.intersectionChange true)).1.isAnimating
      = true
  ∧ (hookStep cfg (hookStep cfg s (.intersectionChange false)).1 (.intersectionChange true)).1.isVisible
      = true
  ∧ (hookStep cfg (hookStep cfg s (.intersectionChange false)).1 (.intersectionChange true)).1.rafPending
      = true
  ∧ (hookStep cfg (hookStep cfg s (.intersectionChange false)).1 (.intersectionChange true)).1.timerPending
      = true
  ∧ (hookStep cfg (hookStep cfg s (.intersectionChange false)).1 (.intersectionChange true)).2
      = [LifecycleCallback.onStart]

/-- The conclusion of claim C6 for two observation requests whose options
share a pooling key, issued on a fresh manager: the instance pool holds
exactly the one key with the one watcher, exactly one watcher was ever
constructed, that watcher observes both elements, and each element is
mapped to its own callback and to the shared watcher. -/
def C6Conclusion (o1 o2 : ObserverOptions) (e1 e2 cb1 cb2 : Nat) : Prop :=
  let st := observe e2 cb2 o2 (observe e1 cb1 o1 {})
  st.observerInstances = [(createObserverKey o1, 0)]
  ∧ st.nextId = 1
  ∧ st.watchers.length = 1
  ∧ (∃ w : Watcher, lookupA 0 st.watchers = some w ∧ w.observed = [e1, e2])
  ∧ lookupA e1 st.elementCallbacks = some cb1
  ∧ lookupA e2 st.elementCallbacks = some cb2
  ∧ lookupA e1 st.elementObservers = some 0
  ∧ lookupA e2 st.elementObservers = some 0

/-! ## Theorems -/

/-- Claim C1: the visibility classifier has asymmetric hysteresis. For every
ratio and threshold, shouldTriggerWithThreshold returns ratio above threshold
when the element was not visible and ratio above half the threshold when it
was; in particular at threshold 0.3 the three documented sample points
evaluate to true, true and false. -/
theorem c1_visibility_classifier_hysteresis :
    (∀ r t : ℚ, shouldTriggerWithThreshold r t false = decide (r > t)
      ∧ shouldTriggerWithThreshold r t true = decide (r > t / 2))
    ∧ shouldTriggerWithThreshold (35/100) (3/10) false = true
    ∧ shouldTriggerWithThreshold (2/10) (3/10) true = true
    ∧ shouldTriggerWithThreshold (1/10) (3/10) true = false := by
  refine ⟨fun r t => ⟨rfl, ?_⟩, ?_, ?_, ?_⟩
  · simp [shouldTriggerWithThreshold, div_eq_mul_inv]
  · norm_num [shouldTriggerWithThreshold]
  · norm_num [shouldTriggerWithThreshold]
  · norm_num [shouldTriggerWithThreshold]

/-- Claim C4 counterexample: the createAnimationStyles duplicate of the
style computation in src/utils/animationUtils.ts, cited by the claim, does
not scale the zoom family from 1.2 for direction down: its initial-phase
transform for down is the 0.8 scale. -/
theorem c4_counterexample :
    (createAnimationStyles "zoom" .down .initial).transform
        = some "scale3d(0.8, 0.8, 1) translateZ(0)"
    ∧ (createAnimationStyles "zoom" .down .initial).transform
        ≠ some "scale3d(1.2, 1.2, 1) translateZ(0)" := by
  exact ⟨rfl, by decide⟩

/-- Claim C4 (amended): the animations-module style computation
getZoomStyles, which getAnimationStyles dispatches to and the lifecycle
hook consumes, scales the initial phase from 0.8 for up, left and right and
from 1.2 for down, toward the unit scale in the animate phase; the
duplicate createAnimationStyles utility instead scales from 0.8 for every
direction. -/
theorem c4_zoom_scale_asymmetry :
    (∀ d : AnimationDirection,
        (getZoomStyles .initial d).transform
            = some (if d = .down then "scale3d(1.2, 1.2, 1) translateZ(0)"
                    else "scale3d(0.8, 0.8, 1) translateZ(0)")
        ∧ (getZoomStyles .animate d).transform = some "scale3d(1, 1, 1) translateZ(0)"
        ∧ getAnimationStyles "zoom" d .initial = getZoomStyles .initial d
        ∧ (getZoomStyles .initial d).opacity = some 0
        ∧ (getZoomStyles .animate d).opacity = some 1)
    ∧ (∀ (d : AnimationDirection) (phase : Phase),
        (createAnimationStyles "zoom" d phase).transform
            = some (if phase = .initial then "scale3d(0.8, 0.8, 1) translateZ(0)"
                    else "scale3d(1, 1, 1) translateZ(0)")) := by
  constructor
  · intro d
    cases d <;> exact ⟨rfl, rfl, rfl, rfl, rfl⟩
  · intro d phase
    cases d <;> cases phase <;> rfl

/-- Claim C8 counterexample: the createAnimationStyles duplicate in
src/utils/animationUtils.ts, cited by the claim, does not fall back to the
fade styles for an unknown family — its switch has no default arm, so the
unknown family bounce yields no opacity at all while the fade styles carry
opacity 0, and the two results differ. -/
theorem c8_counterexample :
    (createAnimationStyles "bounce" .up .initial).opacity = none
    ∧ (createAnimationStyles "fade" .up .initial).opacity = some 0
    ∧ createAnimationStyles "bounce" .up .initial ≠ createAnimationStyles "fade" .up .initial := by
  refine ⟨rfl, rfl, by decide⟩

/-- Claim C8 (amended): both cited style computations are pure and total by
construction, and they diverge on unknown families. For every family value
outside the four known families, the animations-module getAnimationStyles
returns exactly the fade styles for the requested phase through its default
switch arm, while the duplicate createAnimationStyles utility, whose switch
has no default arm, returns only the base GPU-hint styles — the phase-
dependent will-change hint, hidden backface visibility and the perspective
hint — with no opacity, no transform and no transition. -/
theorem c8_unknown_family_fallback_split :
    (∀ (family : String) (d : AnimationDirection) (phase : Phase),
        family ≠ "fade" → family ≠ "slide" → family ≠ "zoom" → family ≠ "flip" →
        getAnimationStyles family d phase = getAnimationStyles "fade" d phase)
    ∧ (∀ (family : String) (d : AnimationDirection) (phase : Phase),
        family ≠ "fade" → family ≠ "slide" → family ≠ "zoom" → family ≠ "flip" →
        createAnimationStyles family d phase
          = { willChange := some (if phase = .initial then "transform, opacity" else "auto")
              backfaceVisibility := some "hidden"
              perspective := some "1000px" }) := by
  constructor
  · intro family d phase h1 h2 h3 h4
    simp [getAnimationStyles, h1, h2, h3, h4]
  · intro family d phase h1 h2 h3 h4
    simp [createAnimationStyles, h1, h2, h3, h4]

/-- Witness for C8 (amended) at the concrete unknown family bounce, for
both cited style computations. -/
theorem c8_unknown_family_fallback_split_witness :
    ("bounce" ≠ "fade" ∧ "bounce" ≠ "slide" ∧ "bounce" ≠ "zoom" ∧ "bounce" ≠ "flip")
    ∧ getAnimationStyles "bounce" .up .initial = getAnimationStyles "fade" .up .initial
    ∧ createAnimationStyles "bounce" .up .initial
        = { willChange := some "transform, opacity"
            backfaceVisibility := some "hidden"
            perspective := some "1000px" } :=
  ⟨⟨by decide, by decide, by decide, by decide⟩,
   c8_unknown_family_fallback_split.1 "bounce" .up .initial
     (by decide) (by decide) (by decide) (by decide),
   c8_unknown_family_fallback_split.2 "bounce" .up .initial
     (by decide) (by decide) (by decide) (by decide)⟩

lemma validateDuration_eq (d : Int) :
    validateDuration d = decide (100 ≤ d ∧ d ≤ 3000) := by
  unfold validateDuration
  split_ifs <;> simp <;> omega

lemma validateDelay_eq (d : Int) :
    validateDelay d = decide (0 ≤ d ∧ d ≤ 2000) := by
  unfold validateDelay
  split_ifs <;> simp <;> omega

/-- Claim C5 counterexample: durationMs 0 is outside the valid range, yet
normalization yields the default 600 rather than the clamped value 100,
because the JavaScript expression duration or-else 600 treats 0 as falsy
before the clamp is applied. -/
theorem c5_counterexample :
    (0:Int) < 100
    ∧ (normalizeAnimationConfig { duration := some 0 }).duration = 600
    ∧ (normalizeAnimationConfig { duration := some 0 }).duration ≠ max 100 (min 3000 0) := by
  refine ⟨by decide, rfl, by decide⟩

/-- Claim C5 (amended): for every duration outside the valid range,
normalization never raises and yields the value clamped into the range —
except for the value 0, which falls back to the default 600 — together
with a diagnostic, while strict validation raises the invalid-duration
error. -/
theorem c5_duration_clamp_vs_validate (d : Int) (h : d < 100 ∨ d > 3000) :
    C5Conclusion d := by
  have hvd : validateDuration d = false := by
    rw [validateDuration_eq]
    simp
    omega
  refine ⟨?_, ?_, ?_, ?_, ?_⟩
  · simp [normalizeAnimationConfig, normalizeAnimationConfigD, normalizeDuration, hvd]
    split_ifs <;> omega
  · simp [normalizeAnimationConfig, normalizeAnimationConfigD, normalizeDuration, hvd]
  · simp [normalizeAnimationConfig, normalizeAnimationConfigD, normalizeDuration, hvd]
  · simp [normalizeAnimationConfigD, normalizeType, normalizeDirection, normalizeDuration,
      normalizeDelay, normalizeEasing, normalizeOffset, hvd]
  · simp [validateAnimationConfig, validateAnimationType, hvd]

/-- Witness for C5 at the documented concrete input 50: the clamp yields
100. -/
theorem c5_duration_clamp_vs_validate_witness :
    ((50:Int) < 100 ∨ (50:Int) > 3000) ∧ C5Conclusion 50 :=
  ⟨Or.inl (by decide), c5_duration_clamp_vs_validate 50 (Or.inl (by decide))⟩

lemma normalizeType_valid (o : Option String) :
    validateAnimationType (normalizeType o).1 = true ∧ (normalizeType o).1 ≠ "" := by
  cases o with
  | none => exact ⟨rfl, by decide⟩
  | some t =>
      by_cases h : t ≠ "" ∧ validateAnimationType t = true
      · simp [normalizeType, h.1, h.2]
      · rcases Decidable.not_and_iff_or_not.mp h with h2 | h2
        · simp at h2
          simp [normalizeType, h2]
          decide
        · simp at h2
          by_cases h3 : t = "" <;> simp [normalizeType, h2, h3] <;> decide

lemma normalizeType_idem (o : Option String) :
    normalizeType (some (normalizeType o).1) = ((normalizeType o).1, []) := by
  obtain ⟨h1, h2⟩ := normalizeType_valid o
  set t := (normalizeType o).1 with ht
  simp [normalizeType, h1, h2]

lemma normalizeDirection_idem (o : Option String) :
    normalizeDirection (normalizeDirection o).1 = ((normalizeDirection o).1, []) := by
  cases o with
  | none => rfl
  | some d =>
      by_cases h : d ≠ "" ∧ validateAnimationDirection d = false
      · simp [normalizeDirection, h.1, h.2]
      · rcases Decidable.not_and_iff_or_not.mp h with h2 | h2
        · simp at h2
          simp [normalizeDirection, h2]
        · simp at h2
          simp [normalizeDirection, h2]

lemma normalizeDuration_valid (o : Option Int) :
    validateDuration (normalizeDuration o).1 = true := by
  cases o with
  | none => rfl
  | some d =>
      by_cases h : validateDuration d = true
      · simp [normalizeDuration, h]
      · simp at h
        simp [normalizeDuration, h, validateDuration_eq, Int.max_def, Int.min_def]
        split_ifs <;> omega

lemma normalizeDuration_idem (o : Option Int) :
    normalizeDuration (some (normalizeDuration o).1) = ((normalizeDuration o).1, []) := by
  have h := normalizeDuration_valid o
  set v := (normalizeDuration o).1 with hv
  simp [normalizeDuration, h]

lemma normalizeDelay_valid (o : Option Int) :
    validateDelay (normalizeDelay o).1 = true := by
  cases o with
  | none => rfl
  | some d =>
      by_cases h : validateDelay d = true
      · simp [normalizeDelay, h]
      · simp at h
        simp [normalizeDelay, h, validateDelay_eq, Int.max_def, Int.min_def]
        split_ifs <;> omega

lemma normalizeDelay_idem (o : Option Int) :
    normalizeDelay (some (normalizeDelay o).1) = ((normalizeDelay o).1, []) := by
  have h := normalizeDelay_valid o
  set v := (normalizeDelay o).1 with hv
  simp [normalizeDelay, h]

lemma normalizeEasing_idem (o : Option String) :
    normalizeEasing (some (normalizeEasing o).1) = ((normalizeEasing o).1, []) := by
  cases o with
  | none =>
      simp [normalizeEasing]
      decide
  | some e =>
      by_cases h : e ≠ "" ∧ validateEasing e = false
      · simp [normalizeEasing, h.1, h.2]
        decide
      · rcases Decidable.not_and_iff_or_not.mp h with h2 | h2
        · simp at h2
          simp [normalizeEasing, h2]
        · simp at h2
          simp [normalizeEasing, h2]

lemma normalizeOffset_idem (o : Option Int) :
    normalizeOffset (some (normalizeOffset o).1) = ((normalizeOffset o).1, []) := by
  cases o <;> simp [normalizeOffset, validateOffset]

/-- Claim C10: configuration normalization is idempotent — feeding the
canonical config normalizeAnimationConfig returns back through
normalizeAnimationConfig changes nothing. -/
theorem c10_normalize_idempotent (c : PartialConfig) :
    normalizeAnimationConfig (toPartialConfig (normalizeAnimationConfig c))
      = normalizeAnimationConfig c := by
  have ht := normalizeType_idem c.type
  have hd := normalizeDirection_idem c.direction
  have hdur := normalizeDuration_idem c.duration
  have hdel := normalizeDelay_idem c.delay
  have he := normalizeEasing_idem c.easing
  have ho := normalizeOffset_idem c.offset
  simp [normalizeAnimationConfig, normalizeAnimationConfigD, toPartialConfig,
    ht, hd, hdur, hdel, he, ho]

lemma hookStep_settled_fixed (cfg : HookConfig) (s : HookState) (e : HookEvent)
    (honce : cfg.once = true) (hs : Settled s)
    (hr : e ≠ HookEvent.callReset) (hu : e ≠ HookEvent.unmount) :
    hookStep cfg s e = (s, []) := by
  obtain ⟨h1, h2, h3, h4, h5⟩ := hs
  cases e with
  | intersectionChange b =>
      cases b <;>
        simp [hookStep, intersectionEffect, triggerFn, resetFn, h1, h2, h3, honce]
  | rafFire => simp [hookStep, rafBody, h5]
  | timerFire => simp [hookStep, timerBody, h4]
  | callTrigger => simp [hookStep, triggerFn, h2, h3, honce]
  | callReset => exact absurd rfl hr
  | unmount => exact absurd rfl hu

/-- Claim C2: once an element registered with the once policy has completed
its entering-to-visible transition, any further sequence of visibility
signals, frame and timer firings and manual trigger calls leaves the hook
state literally unchanged and emits no lifecycle callback — in particular
the element never re-enters the entering state. -/
theorem c2_once_guard_holds (cfg : HookConfig) (s : HookState) (evs : List HookEvent)
    (honce : cfg.once = true) (hs : Settled s)
    (hevs : ∀ e ∈ evs, e ≠ HookEvent.callReset ∧ e ≠ HookEvent.unmount) :
    hookRun cfg s evs = (s, []) := by
  induction evs with
  | nil => rfl
  | cons e es ih =>
      have he := hevs e (by simp)
      have hstep := hookStep_settled_fixed cfg s e honce hs he.1 he.2
      have hes := ih (fun e2 h2 => hevs e2 (by simp [h2]))
      simp [hookRun, hstep, hes]

/-- Witness for C2: a fade configuration with the once policy, the settled
post-completion state, and a visibility-false-then-true cycle followed by a
manual trigger and stray timer and frame firings. -/
theorem c2_once_guard_holds_witness :
    (({ type := "fade", direction := none, duration := 600, delay := 0, easing := "ease",
        once := true, mirror := false, motionDisabled := false } : HookConfig).once = true
      ∧ Settled { isVisible := true, isAnimating := false, hasAnimated := true,
                  timerPending := false, rafPending := false, mounted := true, style := {} }
      ∧ (∀ e ∈ [HookEvent.intersectionChange false, HookEvent.intersectionChange true,
                 HookEvent.callTrigger, HookEvent.timerFire, HookEvent.rafFire],
           e ≠ HookEvent.callReset ∧ e ≠ HookEvent.unmount))
    ∧ hookRun
        { type := "fade", direction := none, duration := 600, delay := 0, easing := "ease",
          once := true, mirror := false, motionDisabled := false }
        { isVisible := true, isAnimating := false, hasAnimated := true,
          timerPending := false, rafPending := false, mounted := true, style := {} }
        [HookEvent.intersectionChange false, HookEvent.intersectionChange true,
         HookEvent.callTrigger, HookEvent.timerFire, HookEvent.rafFire]
      = ({ isVisible := true, isAnimating := false, hasAnimated := true,
           timerPending := false, rafPending := false, mounted := true, style := {} }, []) :=
  ⟨⟨rfl, ⟨rfl, rfl, rfl, rfl, rfl⟩, by decide⟩,
   c2_once_guard_holds _ _ _ rfl ⟨rfl, rfl, rfl, rfl, rfl⟩ (by decide)⟩

lemma getAnimationStyles_initial_transform_isSome (t : String) (d : AnimationDirection) :
    ((getAnimationStyles t d .initial).transform).isSome = true := by
  unfold getAnimationStyles
  split_ifs <;> rfl

lemma assignStyles_transform_of_isSome (base upd : CSSAnimationProperties)
    (h : upd.transform.isSome = true) :
    (assignStyles base upd).transform = upd.transform := by
  cases hu : upd.transform with
  | none => rw [hu] at h; simp at h
  | some v => simp [assignStyles, hu]

lemma getAnimationStyles_initial_opacity_isSome (t : String) (d : AnimationDirection) :
    ((getAnimationStyles t d .initial).opacity).isSome = true := by
  unfold getAnimationStyles
  split_ifs <;> rfl

lemma assignStyles_opacity_of_isSome (base upd : CSSAnimationProperties)
    (h : upd.opacity.isSome = true) :
    (assignStyles base upd).opacity = upd.opacity := by
  cases hu : upd.opacity with
  | none => rw [hu] at h; simp at h
  | some v => simp [assignStyles, hu]

/-- Claim C3: with the once policy off and mirror on, a visibility-false
signal on a visible element is a hard reset to the initial-phase style with
no transition attached, and a following visibility-true signal runs the
entering transition a second time. -/
theorem c3_mirror_hard_reset (cfg : HookConfig) (s : HookState)
    (honce : cfg.once = false) (hmir : cfg.mirror = true) (hmd : cfg.motionDisabled = false)
    (hm : s.mounted = true) (hv : s.isVisible = true) (_ha : s.isAnimating = false) :
    C3Conclusion cfg s := by
  have hres : hookStep cfg s (.intersectionChange false)
      = (resetFn cfg s, []) := by
    simp [hookStep, intersectionEffect, hm, hmd, hv, honce, hmir]
  have htr : (getAnimationStyles cfg.type (dirOrUp cfg.direction) .initial).transform.isSome = true :=
    getAnimationStyles_initial_transform_isSome _ _
  have hop : (getAnimationStyles cfg.type (dirOrUp cfg.direction) .initial).opacity.isSome = true :=
    getAnimationStyles_initial_opacity_isSome _ _
  have hr1 : (hookStep cfg s (.intersectionChange false)).1 = resetFn cfg s := by
    rw [hres]
  refine ⟨by rw [hres], ?_, ?_, ?_, ?_, ?_, ?_, ?_, ?_, ?_, ?_, ?_, ?_⟩ <;>
    rw [hr1] <;>
    simp [resetFn, hm, hookStep, intersectionEffect, triggerFn, hmd, honce,
      assignStyles_transform_of_isSome _ _ htr, assignStyles_opacity_of_isSome _ _ hop]

/-- Witness for C3: a slide-up repeat-mirror configuration in the settled
visible state. -/
theorem c3_mirror_hard_reset_witness :
    (({ type := "slide", direction := some .up, duration := 600, delay := 0, easing := "ease",
        once := false, mirror := true, motionDisabled := false } : HookConfig).once = false
      ∧ ({ type := "slide", direction := some .up, duration := 600, delay := 0, easing := "ease",
           once := false, mirror := true, motionDisabled := false } : HookConfig).mirror = true
      ∧ ({ isVisible := true, isAnimating := false, hasAnimated := true,
           timerPending := false, rafPending := false, mounted := true,
           style := {} } : HookState).mounted = true)
    ∧ C3Conclusion
        { type := "slide", direction := some .up, duration := 600, delay := 0, easing := "ease",
          once := false, mirror := true, motionDisabled := false }
        { isVisible := true, isAnimating := false, hasAnimated := true,
          timerPending := false, rafPending := false, mounted := true, style := {} } :=
  ⟨⟨rfl, rfl, rfl⟩,
   c3_mirror_hard_reset _ _ rfl rfl rfl rfl rfl rfl⟩

lemma hookStep_after_unmount (cfg : HookConfig) (s : HookState) (e : HookEvent)
    (hm : s.mounted = false) (ht : s.timerPending = false) :
    (hookStep cfg s e).1.mounted = false ∧ (hookStep cfg s e).1.timerPending = false
      ∧ (hookStep cfg s e).2 = [] := by
  cases e with
  | intersectionChange b => simp [hookStep, intersectionEffect, hm, ht]
  | rafFire =>
      by_cases hr : s.rafPending = true <;> simp [hookStep, rafBody, hr, hm, ht]
  | timerFire => simp [hookStep, timerBody, ht, hm]
  | callTrigger => simp [hookStep, triggerFn, hm, ht]
  | callReset =>
      by_cases hmd : cfg.motionDisabled = true <;> simp [hookStep, resetFn, hm, ht, hmd]
  | unmount => simp [hookStep]

lemma hookRun_after_unmount (cfg : HookConfig) (s : HookState) (evs : List HookEvent)
    (hm : s.mounted = false) (ht : s.timerPending = false) :
    (hookRun cfg s evs).2 = [] := by
  induction evs generalizing s with
  | nil => rfl
  | cons e es ih =>
      obtain ⟨h1, h2, h3⟩ := hookStep_after_unmount cfg s e hm ht
      simp [hookRun, h3]
      exact ih _ h1 h2

/-- Claim C9: unmounting cancels the pending completion timeout immediately
and emits nothing, and no sequence of later events — timer or frame
firings included, however far simulated time advances — can invoke any
lifecycle callback afterwards. -/
theorem c9_unmount_cancels_timer_and_callbacks (cfg : HookConfig) (s : HookState)
    (evs : List HookEvent) :
    (hookStep cfg s .unmount).1.timerPending = false
    ∧ (hookStep cfg s .unmount).2 = []
    ∧ (hookRun cfg (hookStep cfg s .unmount).1 evs).2 = [] := by
  refine ⟨rfl, rfl, ?_⟩
  exact hookRun_after_unmount cfg _ evs rfl rfl

/-- Claim C6: two observe calls whose options derive the same pooling key
share exactly one underlying watcher instance, with both elements
registered as members of it, each under its own callback. -/
theorem c6_shared_watcher_for_equal_keys (o1 o2 : ObserverOptions) (e1 e2 cb1 cb2 : Nat)
    (hne : e1 ≠ e2) (hkey : createObserverKey o1 = createObserverKey o2) :
    C6Conclusion o1 o2 e1 e2 cb1 cb2 := by
  have hne2 : e2 ≠ e1 := Ne.symm hne
  have hobs : observe e2 cb2 o2 (observe e1 cb1 o1 {})
      = { observerInstances := [(createObserverKey o1, 0)]
          watchers := [(0, { root := o1.root
                             rootMargin := effectiveRootMarginOf o1.rootMargin (o1.offset.getD 0)
                             threshold := o1.threshold.getD (.single 0)
                             observed := [e1, e2] })]
          nextId := 1
          elementCallbacks := [(e1, cb1), (e2, cb2)]
          elementObservers := [(e1, 0), (e2, 0)] } := by
    simp [observe, getOrCreateObserver, unobserve, watcherObserve,
      lookupA, setA, hkey, hne, hne2]
  unfold C6Conclusion
  rw [hobs]
  refine ⟨rfl, rfl, rfl, ⟨_, rfl, rfl⟩, ?_, ?_, ?_, ?_⟩ <;>
    simp [lookupA, hne, hne2]

/-- Witness for C6: two default-option observations of two distinct
elements on a fresh manager. -/
theorem c6_shared_watcher_for_equal_keys_witness :
    ((0:Nat) ≠ 1 ∧ createObserverKey {} = createObserverKey {})
    ∧ C6Conclusion {} {} 0 1 10 11 :=
  ⟨⟨by decide, rfl⟩, c6_shared_watcher_for_equal_keys {} {} 0 1 10 11 (by decide) rfl⟩

/-- Claim C7 counterexample: two observations with distinct non-null roots
do not yield distinct pooling keys — every present root collapses to the
same custom-root key component. -/
theorem c7_counterexample :
    createObserverKey { root := some 1 } = createObserverKey { root := some 2 }
    ∧ (some (1:Nat)) ≠ (some (2:Nat)) :=
  ⟨rfl, by decide⟩

/-- Claim C7 (amended), in five parts: the key collapses every present
root to one component, so only presence of a custom root is distinguished,
not its identity; a key with no root always differs from a key with a
root; a present nonempty margin string wins over any offset; with no
explicit margin a strictly positive offset synthesizes the symmetric
four-sided margin; and a zero or negative offset synthesizes the literal
0px margin instead of a four-sided one. -/
theorem c7_key_derivation :
    (∀ (r1 r2 : Nat) (m : Option String) (t : Option ThresholdValue) (o : Option Int),
        createObserverKey { root := some r1, rootMargin := m, threshold := t, offset := o }
          = createObserverKey { root := some r2, rootMargin := m, threshold := t, offset := o })
    ∧ (∀ (r : Nat) (m : Option String) (t : Option ThresholdValue) (o : Option Int),
        createObserverKey { root := none, rootMargin := m, threshold := t, offset := o }
          ≠ createObserverKey { root := some r, rootMargin := m, threshold := t, offset := o })
    ∧ (∀ (r : Option Nat) (m : String) (t : Option ThresholdValue) (o : Int), m ≠ "" →
        createObserverKey { root := r, rootMargin := some m, threshold := t, offset := some o }
          = createObserverKey { root := r, rootMargin := some m, threshold := t, offset := none })
    ∧ (∀ (r : Option Nat) (t : Option ThresholdValue) (o : Int), o > 0 →
        createObserverKey { root := r, rootMargin := none, threshold := t, offset := some o }
          = createObserverKey { root := r, rootMargin := some (createRootMargin o), threshold := t,
                                offset := none })
    ∧ (∀ (r : Option Nat) (t : Option ThresholdValue) (o : Int), o ≤ 0 →
        createObserverKey { root := r, rootMargin := none, threshold := t, offset := some o }
          = createObserverKey { root := r, rootMargin := none, threshold := t, offset := none }) := by
  refine ⟨?_, ?_, ?_, ?_, ?_⟩
  · intro r1 r2 m t o
    rfl
  · intro r m t o h
    have hd := congrArg String.data h
    simp only [createObserverKey, rootKeyOf, String.data_append] at hd
    simp at hd
  · intro r m t o hm
    simp [createObserverKey, effectiveRootMarginOf, jsOrString, hm]
  · intro r t o ho
    have h0 : (0:Int) < o := ho
    have hne : createRootMargin o ≠ "" := by
      intro hc
      have hlen := congrArg String.length hc
      simp only [createRootMargin, String.length_append] at hlen
      rw [show ("px" : String).length = 2 from rfl,
          show ("" : String).length = 0 from rfl] at hlen
      omega
    simp [createObserverKey, effectiveRootMarginOf, jsOrString, h0, hne]
  · intro r t o ho
    have h0 : ¬ ((0:Int) < o) := by omega
    simp [createObserverKey, effectiveRootMarginOf, jsOrString, h0]

/-- Witness for C7 (amended): concrete instantiations of all five parts. -/
theorem c7_key_derivation_witness :
    createObserverKey { root := some 5 } = createObserverKey { root := some 9 }
    ∧ createObserverKey {} ≠ createObserverKey { root := some 5 }
    ∧ (("10px" : String) ≠ ""
        ∧ createObserverKey { rootMargin := some "10px", offset := some 7 }
            = createObserverKey { rootMargin := some "10px" })
    ∧ ((7:Int) > 0
        ∧ createObserverKey { offset := some 7 }
            = createObserverKey { rootMargin := some (createRootMargin 7) })
    ∧ ((-5:Int) ≤ 0
        ∧ createObserverKey { offset := some (-5) } = createObserverKey {}) :=
  ⟨c7_key_derivation.1 5 9 none none none,
   c7_key_derivation.2.1 5 none none none,
   ⟨by decide, c7_key_derivation.2.2.1 none "10px" none 7 (by decide)⟩,
   ⟨by decide, c7_key_derivation.2.2.2.1 none none 7 (by decide)⟩,
   ⟨by decide, c7_key_derivation.2.2.2.2 none none (-5) (by decide)⟩⟩

end AnimateOnView
